import Mathlib

/-!
Verification development for the calorieApp repository.

The Python modules `calorie_calculator.py`, `enhanced_food_database.py`,
`hyper_accurate_calculator.py` and `app.py` are shallowly embedded below.
Strings are modelled as lists of characters, Python floats as rationals,
Python dictionaries as structures with optional fields, and the external
collaborators (USDA API, web search) as `Option`-valued inputs: `none`
models a miss or a caught exception of the corresponding client.
-/

/-! String helpers (Python `in`, `str.lower`, `str.split`, `str.strip`) -/

/-- ASCII lower-casing of one character, as Python `str.lower` acts on the
ASCII labels used by the app. -/
def lowerChar (c : Char) : Char :=
  if 'A' ≤ c ∧ c ≤ 'Z' then Char.ofNat (c.toNat + 32) else c

/-- Lower-case a whole string (as a character list). -/
def lowerStr (s : List Char) : List Char := s.map lowerChar

/-- Test whether the first list is an initial segment of the second. -/
def leadsWith : List Char → List Char → Bool
  | [], _ => true
  | _ :: _, [] => false
  | a :: as, b :: bs => a == b && leadsWith as bs

/-- Python's substring test `needle in hay`. -/
def hasSub (needle hay : List Char) : Bool :=
  match hay with
  | [] => needle.isEmpty
  | _ :: t => leadsWith needle hay || hasSub needle t

/-- Split a string on whitespace, dropping empty pieces: Python `str.split()`. -/
def splitWs (s : List Char) : List (List Char) :=
  let raw := s.foldr
    (fun c acc =>
      if c = ' ' then [] :: acc
      else match acc with
        | [] => [[c]]
        | w :: ws => (c :: w) :: ws)
    [[]]
  raw.filter (fun w => ¬ w.isEmpty)

/-- Remove duplicate words, keeping first occurrences: the effect of Python's
`set(...)` on the counting done by the matcher. -/
def dedup : List (List Char) → List (List Char)
  | [] => []
  | w :: ws => if ws.contains w then dedup ws else w :: dedup ws

/-- Python `str.strip()` for the space-only padding that can occur in labels. -/
def trimSp (s : List Char) : List Char :=
  ((s.dropWhile (fun c => c == ' ')).reverse.dropWhile (fun c => c == ' ')).reverse

/-! Rounding (Python `round`, banker's rounding at a decimal place) -/

/-- Round a rational to the nearest integer, ties to even: Python `round(x)`. -/
def pyRound (q : ℚ) : ℤ :=
  let f : ℤ := ⌊q⌋
  let r : ℚ := q - f
  if r < 1/2 then f
  else if 1/2 < r then f + 1
  else if 2 ∣ f then f else f + 1

/-- Python `round(x, 1)`. -/
def round1 (q : ℚ) : ℚ := (pyRound (q * 10) : ℚ) / 10

/-- Python `round(x, 3)`, used for sodium on the web-search path. -/
def round3 (q : ℚ) : ℚ := (pyRound (q * 1000) : ℚ) / 1000

/-! `enhanced_food_database.py` -/

/-- One entry of `ENHANCED_FOOD_DATABASE`; every literal in the source
defines all six keys, so they are modelled as mandatory fields. -/
structure EnhEntry where
  calories_per_100g : ℚ
  protein_per_100g : ℚ
  carbs_per_100g : ℚ
  fat_per_100g : ℚ
  typical_weight : ℚ
  typical_calories : ℚ
deriving DecidableEq

/-- `ENHANCED_FOOD_DATABASE`, in source (= dict insertion) order. -/
def enhancedFoodDatabase : List (List Char × EnhEntry) :=
  [ ("big mac".toList, ⟨257, 13, 20, 17, 222, 570⟩)
  , ("bigmac".toList, ⟨257, 13, 20, 17, 222, 570⟩)
  , ("mcdonald big mac".toList, ⟨257, 13, 20, 17, 222, 570⟩)
  , ("quarter pounder".toList, ⟨265, 15, 22, 16, 194, 515⟩)
  , ("mcchicken".toList, ⟨208, 12, 20, 11, 143, 400⟩)
  , ("chicken mcnuggets".toList, ⟨300, 18, 13, 20, 77, 230⟩)
  , ("whopper".toList, ⟨250, 13, 22, 15, 291, 660⟩)
  , ("burger king whopper".toList, ⟨250, 13, 22, 15, 291, 660⟩)
  , ("baconator".toList, ⟨349, 20, 25, 23, 275, 960⟩)
  , ("wendys baconator".toList, ⟨349, 20, 25, 23, 275, 960⟩)
  , ("son of baconator".toList, ⟨290, 18, 23, 18, 200, 580⟩)
  , ("pizza slice".toList, ⟨266, 11, 33, 10, 100, 285⟩)
  , ("pepperoni pizza".toList, ⟨298, 12, 30, 15, 120, 358⟩)
  , ("cheese pizza".toList, ⟨276, 12, 33, 11, 100, 276⟩)
  , ("margherita pizza".toList, ⟨250, 11, 32, 9, 120, 300⟩)
  , ("apple".toList, ⟨52, 0.3, 14, 0.2, 150, 78⟩)
  , ("banana".toList, ⟨89, 1.1, 23, 0.3, 120, 107⟩)
  , ("rice and beans".toList, ⟨135, 4.5, 24, 2, 200, 270⟩)
  , ("rice".toList, ⟨130, 2.7, 28, 0.3, 150, 195⟩)
  , ("caesar salad".toList, ⟨90, 3.5, 6, 7, 200, 180⟩)
  , ("green salad".toList, ⟨20, 1.5, 4, 0.2, 100, 20⟩)
  , ("grilled chicken".toList, ⟨165, 31, 0, 3.6, 120, 198⟩)
  , ("fried chicken".toList, ⟨320, 19, 8, 24, 100, 320⟩)
  , ("sandwich".toList, ⟨250, 12, 30, 10, 150, 375⟩)
  , ("club sandwich".toList, ⟨280, 15, 25, 15, 200, 560⟩)
  , ("burrito".toList, ⟨206, 8, 28, 7, 220, 453⟩)
  , ("quesadilla".toList, ⟨234, 11, 22, 12, 150, 351⟩)
  , ("taco".toList, ⟨206, 10, 18, 11, 70, 144⟩)
  , ("roti".toList, ⟨299, 9, 50, 8, 40, 120⟩)
  , ("chapati".toList, ⟨299, 9, 50, 8, 40, 120⟩)
  , ("naan".toList, ⟨310, 9, 45, 12, 80, 248⟩)
  , ("dal".toList, ⟨130, 8, 20, 2, 150, 195⟩)
  , ("dal curry".toList, ⟨130, 8, 20, 2, 150, 195⟩)
  , ("lentil curry".toList, ⟨130, 8, 20, 2, 150, 195⟩)
  , ("roti and dal".toList, ⟨180, 8, 30, 4, 240, 432⟩)
  , ("rice and dal".toList, ⟨135, 5, 25, 2, 250, 338⟩)
  , ("pasta with sauce".toList, ⟨131, 5, 25, 1.1, 250, 328⟩)
  , ("spaghetti".toList, ⟨158, 6, 31, 1, 200, 316⟩)
  , ("pancakes".toList, ⟨227, 6, 28, 9, 80, 182⟩)
  , ("waffle".toList, ⟨291, 8, 33, 14, 75, 218⟩)
  , ("french toast".toList, ⟨230, 8, 25, 11, 65, 150⟩) ]

/-- `FOOD_CATEGORIES` from `enhanced_food_database.py`, in source order. -/
def foodCategories : List (List Char × List (List Char)) :=
  [ ("fast_food".toList,
      ["big mac".toList, "bigmac".toList, "whopper".toList, "quarter pounder".toList,
       "mcchicken".toList, "baconator".toList, "son of baconator".toList])
  , ("pizza".toList,
      ["pizza".toList, "pepperoni pizza".toList, "cheese pizza".toList,
       "margherita pizza".toList])
  , ("mexican".toList,
      ["burrito".toList, "quesadilla".toList, "taco".toList, "salsa".toList])
  , ("asian".toList,
      ["rice".toList, "noodles".toList, "sushi".toList, "stir fry".toList])
  , ("indian".toList,
      ["roti".toList, "chapati".toList, "naan".toList, "dal".toList, "curry".toList,
       "biryani".toList, "tandoori".toList, "roti and dal".toList, "rice and dal".toList])
  , ("breakfast".toList,
      ["pancakes".toList, "waffle".toList, "french toast".toList, "eggs".toList,
       "bacon".toList])
  , ("salads".toList,
      ["caesar salad".toList, "green salad".toList, "garden salad".toList])
  , ("sandwiches".toList,
      ["sandwich".toList, "club sandwich".toList, "blt".toList, "grilled cheese".toList]) ]

/-- `get_enhanced_nutrition_data`: direct key lookup, then two-sided substring
fuzzy matching over the entries in order, then category-based matching. -/
def getEnhancedNutritionData (foodName : List Char) : Option EnhEntry :=
  let fl := trimSp (lowerStr foodName)
  match enhancedFoodDatabase.find? (fun p => p.1 == fl) with
  | some p => some p.2
  | none =>
    match enhancedFoodDatabase.find? (fun p => hasSub fl p.1 || hasSub p.1 fl) with
    | some p => some p.2
    | none =>
      match ((foodCategories.map Prod.snd).flatten).find?
          (fun f => (hasSub f fl || hasSub fl f) &&
            (enhancedFoodDatabase.find? (fun p => p.1 == f)).isSome) with
      | some f => (enhancedFoodDatabase.find? (fun p => p.1 == f)).map Prod.snd
      | none => none

/-- The dictionary returned by `calculate_accurate_calories`. -/
structure EnhResult where
  total_calories : ℚ
  protein : ℚ
  carbs : ℚ
  fat : ℚ
  weight_grams : ℚ
  data_source : List Char
  accuracy : List Char
deriving DecidableEq

/-- `calculate_accurate_calories(food_name, weight_grams)` for an explicitly
given weight (the app always passes one; the `None`-default branch of the
Python signature is therefore not exercised). -/
def calculateAccurateCalories (foodName : List Char) (weightGrams : ℚ) : Option EnhResult :=
  match getEnhancedNutritionData foodName with
  | none => none
  | some e =>
    let cal : ℚ :=
      if weightGrams = e.typical_weight then e.typical_calories
      else e.calories_per_100g * (weightGrams / 100)
    some
      { total_calories := round1 cal
      , protein := round1 (e.protein_per_100g * (weightGrams / 100))
      , carbs := round1 (e.carbs_per_100g * (weightGrams / 100))
      , fat := round1 (e.fat_per_100g * (weightGrams / 100))
      , weight_grams := weightGrams
      , data_source := "enhanced_database".toList
      , accuracy := "high".toList }

/-! `calorie_calculator.py` -/

/-- The `NutritionalInfo` dataclass. -/
structure NutritionalInfo where
  calories : ℚ
  protein : ℚ := 0
  carbs : ℚ := 0
  fat : ℚ := 0
  fiber : ℚ := 0
  sugar : ℚ := 0
  sodium : ℚ := 0
deriving DecidableEq

/-- One entry of the local food database; every literal defines all keys. -/
structure LocalEntry where
  calories_per_100g : ℚ
  protein_per_100g : ℚ
  carbs_per_100g : ℚ
  fat_per_100g : ℚ
  fiber_per_100g : ℚ
  sugar_per_100g : ℚ
  sodium_per_100g : ℚ
deriving DecidableEq

/-- `_load_local_food_database`, in source order. -/
def localFoodDb : List (List Char × LocalEntry) :=
  [ ("apple".toList, ⟨52, 0.3, 14, 0.2, 2.4, 10, 0.001⟩)
  , ("banana".toList, ⟨89, 1.1, 23, 0.3, 2.6, 12, 0.001⟩)
  , ("orange".toList, ⟨47, 0.9, 12, 0.1, 2.4, 9, 0.001⟩)
  , ("rice".toList, ⟨130, 2.7, 28, 0.3, 0.4, 0.1, 0.001⟩)
  , ("chicken".toList, ⟨165, 31, 0, 3.6, 0, 0, 0.074⟩)
  , ("chicken breast".toList, ⟨165, 31, 0, 3.6, 0, 0, 0.074⟩)
  , ("beef".toList, ⟨250, 26, 0, 15, 0, 0, 0.059⟩)
  , ("pork".toList, ⟨242, 27, 0, 14, 0, 0, 0.062⟩)
  , ("fish".toList, ⟨206, 22, 0, 12, 0, 0, 0.059⟩)
  , ("salmon".toList, ⟨208, 20, 0, 13, 0, 0, 0.054⟩)
  , ("bread".toList, ⟨265, 9, 49, 3.2, 2.7, 5, 0.491⟩)
  , ("pasta".toList, ⟨131, 5, 25, 1.1, 1.8, 0.6, 0.001⟩)
  , ("egg".toList, ⟨155, 13, 1.1, 11, 0, 1.1, 0.124⟩)
  , ("milk".toList, ⟨61, 3.2, 4.8, 3.3, 0, 4.8, 0.044⟩)
  , ("cheese".toList, ⟨402, 25, 1.3, 33, 0, 0.5, 0.621⟩)
  , ("yogurt".toList, ⟨59, 10, 3.6, 0.4, 0, 3.2, 0.046⟩)
  , ("broccoli".toList, ⟨34, 2.8, 7, 0.4, 2.6, 1.5, 0.033⟩)
  , ("carrots".toList, ⟨41, 0.9, 10, 0.2, 2.8, 4.7, 0.069⟩)
  , ("spinach".toList, ⟨23, 2.9, 3.6, 0.4, 2.2, 0.4, 0.079⟩)
  , ("tomato".toList, ⟨18, 0.9, 3.9, 0.2, 1.2, 2.6, 0.005⟩)
  , ("potato".toList, ⟨77, 2, 17, 0.1, 2.2, 0.8, 0.006⟩)
  , ("pizza".toList, ⟨266, 11, 33, 10, 2.3, 3.6, 0.598⟩)
  , ("burger".toList, ⟨295, 17, 25, 15, 2, 4, 0.497⟩)
  , ("sandwich".toList, ⟨250, 12, 30, 10, 3, 4, 0.380⟩)
  , ("salad".toList, ⟨20, 1.5, 4, 0.2, 1.8, 2, 0.028⟩) ]

/-- The word list used for the matching bonus in `_get_local_nutrition`. -/
def importantWords : List (List Char) :=
  ["chicken".toList, "beef".toList, "pork".toList, "fish".toList, "salmon".toList,
   "pizza".toList, "burger".toList, "rice".toList, "pasta".toList]

/-- The per-entry matching score of `_get_local_nutrition`. -/
def localScore (fl foodKey : List Char) : ℚ :=
  if fl == foodKey then 100
  else if hasSub fl foodKey || hasSub foodKey fl then 80
  else
    let fw := dedup (splitWs fl)
    let kw := dedup (splitWs foodKey)
    let commonWords := fw.filter (fun w => kw.contains w)
    if commonWords.isEmpty then 0
    else
      let base : ℚ := (commonWords.length : ℚ) / (max fw.length kw.length : ℚ) * 50
      if commonWords.any (fun w => importantWords.contains w) then base + 20 else base

/-- The best-match scan of `_get_local_nutrition` (strictly-greater update,
entries visited in dict insertion order, initial score 0). -/
def bestLocalMatch (fl : List Char) : Option LocalEntry × ℚ :=
  localFoodDb.foldl
    (fun acc p => if localScore fl p.1 > acc.2 then (some p.2, localScore fl p.1) else acc)
    (none, 0)

/-- The `category_nutrition` table of `_match_food_category`, in source order. -/
def categoryNutritionTable : List (List Char × LocalEntry) :=
  [ ("chicken".toList, ⟨165, 31, 0, 3.6, 0, 0, 0.074⟩)
  , ("beef".toList, ⟨250, 26, 0, 15, 0, 0, 0.059⟩)
  , ("pork".toList, ⟨242, 27, 0, 14, 0, 0, 0.062⟩)
  , ("fish".toList, ⟨206, 22, 0, 12, 0, 0, 0.059⟩)
  , ("salmon".toList, ⟨208, 20, 0, 13, 0, 0, 0.054⟩)
  , ("rice".toList, ⟨130, 2.7, 28, 0.3, 0.4, 0.1, 0.001⟩)
  , ("pasta".toList, ⟨131, 5, 25, 1.1, 1.8, 0.6, 0.001⟩)
  , ("bread".toList, ⟨265, 9, 49, 3.2, 2.7, 5, 0.491⟩)
  , ("noodles".toList, ⟨138, 4.5, 25, 2.2, 1.8, 0.6, 0.001⟩)
  , ("pizza".toList, ⟨280, 12, 35, 12, 2.5, 4, 0.640⟩)
  , ("burger".toList, ⟨320, 18, 28, 18, 2, 4, 0.520⟩)
  , ("sandwich".toList, ⟨250, 12, 30, 10, 3, 4, 0.380⟩)
  , ("taco".toList, ⟨220, 11, 20, 12, 3, 2, 0.350⟩)
  , ("vegetable".toList, ⟨35, 3, 7, 0.4, 3, 2, 0.040⟩)
  , ("salad".toList, ⟨20, 1.5, 4, 0.2, 1.8, 2, 0.028⟩)
  , ("fruit".toList, ⟨60, 0.5, 15, 0.2, 2.5, 12, 0.001⟩) ]

/-- `_match_food_category`: first category name occurring inside the label, in
table order, then the broader keyword patterns, else no match. -/
def matchFoodCategory (fl : List Char) : Option LocalEntry :=
  match categoryNutritionTable.find? (fun p => hasSub p.1 fl) with
  | some p => some p.2
  | none =>
    if ["meat".toList, "steak".toList, "roast".toList].any (fun w => hasSub w fl) then
      some ⟨250, 26, 0, 15, 0, 0, 0.059⟩
    else if ["vegetable".toList, "veggie".toList, "green".toList].any (fun w => hasSub w fl) then
      some ⟨35, 3, 7, 0.4, 3, 2, 0.040⟩
    else if ["fruit".toList, "berry".toList, "apple".toList, "orange".toList].any
        (fun w => hasSub w fl) then
      some ⟨60, 0.5, 15, 0.2, 2.5, 12, 0.001⟩
    else none

/-- The default (average food item) entry of `_get_local_nutrition`. -/
def defaultLocalEntry : LocalEntry := ⟨150, 5, 20, 5, 2, 8, 0.3⟩

/-- `_get_local_nutrition(food_name, weight_grams)`. -/
def getLocalNutrition (foodName : List Char) (weightGrams : ℚ) : NutritionalInfo :=
  let fl := lowerStr foodName
  let bm := bestLocalMatch fl
  let afterCategory :=
    if bm.1.isNone ∨ bm.2 < 10 then matchFoodCategory fl else bm.1
  let e := afterCategory.getD defaultLocalEntry
  let scale := weightGrams / 100
  { calories := e.calories_per_100g * scale
  , protein := e.protein_per_100g * scale
  , carbs := e.carbs_per_100g * scale
  , fat := e.fat_per_100g * scale
  , fiber := e.fiber_per_100g * scale
  , sugar := e.sugar_per_100g * scale
  , sodium := e.sodium_per_100g * scale }

/-- Componentwise sum of two `NutritionalInfo` values (the accumulation loop
of `_calculate_multi_food_nutrition`). -/
def addNutrition (a b : NutritionalInfo) : NutritionalInfo :=
  ⟨a.calories + b.calories, a.protein + b.protein, a.carbs + b.carbs, a.fat + b.fat,
   a.fiber + b.fiber, a.sugar + b.sugar, a.sodium + b.sodium⟩

/-- The per-label weight assignment of `_calculate_multi_food_nutrition`:
`weight_per_food = total_weight / len(all_foods)` for every label. -/
def equalWeights (allFoods : List (List Char)) (totalWeight : ℚ) : List (List Char × ℚ) :=
  allFoods.map (fun f => (f, totalWeight / (allFoods.length : ℚ)))

/-- `_calculate_multi_food_nutrition(all_foods, total_weight)`. -/
def calcMultiFoodNutrition (allFoods : List (List Char)) (totalWeight : ℚ) : NutritionalInfo :=
  if allFoods.length ≤ 1 then
    getLocalNutrition (allFoods.headD "unknown".toList) totalWeight
  else
    (equalWeights allFoods totalWeight).foldl
      (fun acc p => addNutrition acc (getLocalNutrition p.1 p.2)) ⟨0, 0, 0, 0, 0, 0, 0⟩

/-- The chain list of `_is_fast_food_item`. -/
def fastFoodChains : List (List Char) :=
  ["mcdonalds".toList, "mcdonald".toList, "burger king".toList, "kfc".toList,
   "taco bell".toList, "subway".toList, "pizza hut".toList, "dominos".toList,
   "starbucks".toList, "dunkin".toList, "wendys".toList, "wendy".toList,
   "chipotle".toList, "five guys".toList, "in-n-out".toList, "jack in the box".toList,
   "carl jr".toList, "hardees".toList, "arbys".toList, "dairy queen".toList,
   "sonic".toList, "papa johns".toList, "little caesars".toList, "popeyes".toList,
   "chick-fil-a".toList]

/-- The branded-item list of `_is_fast_food_item`. -/
def fastFoodItems : List (List Char) :=
  ["big mac".toList, "whopper".toList, "quarter pounder".toList, "mcchicken".toList,
   "baconator".toList, "son of baconator".toList, "frappuccino".toList, "latte".toList,
   "cappuccino".toList]

/-- `_is_fast_food_item(food_name)`. -/
def isFastFoodItem (foodName : List Char) : Bool :=
  let fl := lowerStr foodName
  fastFoodChains.any (fun c => hasSub c fl) || fastFoodItems.any (fun c => hasSub c fl)

/-- The keyword list of `_is_branded_or_restaurant_item`. -/
def brandedKeywords : List (List Char) :=
  ["olive garden".toList, "red lobster".toList, "applebees".toList, "chilis".toList,
   "outback".toList, "ihop".toList, "dennys".toList, "panda express".toList,
   "pf changs".toList, "cheesecake factory".toList,
   "oreo".toList, "doritos".toList, "lays".toList, "pringles".toList, "pepsi".toList,
   "coca cola".toList, "coke".toList, "snickers".toList, "kit kat".toList,
   "reeses".toList, "hershey".toList, "mars".toList, "twix".toList,
   "cheerios".toList, "frosted flakes".toList, "lucky charms".toList,
   "fruit loops".toList,
   "ben jerry".toList, "haagen dazs".toList, "blue bell".toList, "breyers".toList,
   "lean cuisine".toList, "hungry man".toList, "stouffers".toList,
   "marie callender".toList,
   "frappuccino".toList, "macchiato".toList, "cappuccino".toList, "americano".toList,
   "energy drink".toList, "red bull".toList, "monster".toList, "rockstar".toList,
   "brand".toList, "restaurant".toList, "chain".toList, "frozen meal".toList,
   "packaged".toList]

/-- `_is_branded_or_restaurant_item(food_name)`. -/
def isBrandedOrRestaurantItem (foodName : List Char) : Bool :=
  let fl := lowerStr foodName
  brandedKeywords.any (fun k => hasSub k fl)

/-- The result dictionary of `calculate_calories` and of the records built in
`web_search_nutrition.py`. Keys that only some code paths set are optional
fields. (The purely descriptive `serving_description` string key, written on
some web paths and never read back by any embedded consumer, is not
modelled.) -/
structure FoodResult where
  food_name : Option (List Char) := none
  weight_grams : ℚ
  total_calories : ℚ
  protein : ℚ
  carbs : ℚ
  fat : ℚ
  fiber : Option ℚ := none
  sugar : Option ℚ := none
  sodium : Option ℚ := none
  data_source : List Char
  confidence_score : Option ℚ := none
  brand : Option (List Char) := none
  source : Option (List Char) := none
  accuracy : Option (List Char) := none
  web_search_attempted : Option Bool := none
  web_search_success : Option Bool := none
deriving DecidableEq

/-! `web_search_nutrition.py` -/

/-- A nutrition dictionary inside the web-search module: the JSON parsed from
the fast-food prompt reply, or the scaled dictionary built by either search
path. Every key is read with `.get`, so every field is optional. -/
structure WebData where
  food_name : Option (List Char) := none
  serving_weight_grams : Option ℚ := none
  calories : Option ℚ := none
  protein : Option ℚ := none
  carbs : Option ℚ := none
  fat : Option ℚ := none
  fiber : Option ℚ := none
  sugar : Option ℚ := none
  sodium : Option ℚ := none
  confidence : Option ℚ := none
  brand : Option (List Char) := none
  source : Option (List Char) := none
  data_source : Option (List Char) := none
deriving DecidableEq

/-- The per-100g JSON reply parsed by `_search_general_nutrition`. -/
structure GeneralReply where
  food_name : Option (List Char) := none
  calories_per_100g : Option ℚ := none
  protein_per_100g : Option ℚ := none
  carbs_per_100g : Option ℚ := none
  fat_per_100g : Option ℚ := none
  fiber_per_100g : Option ℚ := none
  sugar_per_100g : Option ℚ := none
  sodium_per_100g : Option ℚ := none
  confidence : Option ℚ := none
  source : Option (List Char) := none
deriving DecidableEq

/-- The true external collaborators behind the embedded code: the parsed
Ollama replies consumed by `web_search_nutrition.py` (`none` models an HTTP
failure, a non-200 status, an unparseable reply, or an `error`-keyed reply)
and the USDA client of `calorie_calculator.py` (`none` models any caught
exception there). Everything downstream of these replies - the keyword
gating, the weight normalization, the record building - is repository code
and is embedded below. -/
structure Externals where
  fastFoodReply : Option WebData := none
  generalReply : Option GeneralReply := none
  usda : Option NutritionalInfo := none
deriving DecidableEq

/-- `_is_fast_food_item` of `web_search_nutrition.py`: chain names only (the
same chain list as the calculator uses, without its branded-item list). -/
def webIsFastFoodItem (foodName : List Char) : Bool :=
  fastFoodChains.any (fun c => hasSub c (lowerStr foodName))

/-- The keyword list of `_needs_web_search`. -/
def webSearchKeywords : List (List Char) :=
  ["big mac".toList, "whopper".toList, "quarter pounder".toList, "mcchicken".toList,
   "baconator".toList, "pizza".toList, "starbucks".toList, "frappuccino".toList,
   "latte".toList, "branded".toList, "restaurant".toList, "chain".toList]

/-- `_needs_web_search(food_name)`. -/
def needsWebSearch (foodName : List Char) : Bool :=
  webSearchKeywords.any (fun k => hasSub k (lowerStr foodName))

/-- `_scale_nutrition_data(nutrition_data, target_weight)`: rescale every
macro by `target_weight / serving_weight_grams` and set
`serving_weight_grams` to the target weight. -/
def scaleNutritionData (d : WebData) (targetWeight : ℚ) : WebData :=
  let originalWeight := d.serving_weight_grams.getD 100
  let scaleFactor := targetWeight / originalWeight
  { d with calories := some (d.calories.getD 0 * scaleFactor)
         , protein := some (d.protein.getD 0 * scaleFactor)
         , carbs := some (d.carbs.getD 0 * scaleFactor)
         , fat := some (d.fat.getD 0 * scaleFactor)
         , fiber := some (d.fiber.getD 0 * scaleFactor)
         , sugar := some (d.sugar.getD 0 * scaleFactor)
         , sodium := some (d.sodium.getD 0 * scaleFactor)
         , serving_weight_grams := some targetWeight }

/-- `_search_fast_food_nutrition(food_name, estimated_weight)` given the
parsed reply: when the requested weight is truthy and differs from the
reply's reported serving weight, the reply is rescaled to the requested
weight. A reply reporting a zero serving weight would make the rescaling
divide by zero; the surrounding handler catches that and the search returns
`None`. -/
def searchFastFoodNutrition (reply : Option WebData) (estimatedWeight : ℚ) :
    Option WebData :=
  match reply with
  | none => none
  | some d =>
    if estimatedWeight ≠ 0 ∧
        estimatedWeight ≠ d.serving_weight_grams.getD estimatedWeight then
      if d.serving_weight_grams.getD 100 = 0 then none
      else some (scaleNutritionData d estimatedWeight)
    else some d

/-- `_search_general_nutrition(food_name, estimated_weight)` given the parsed
per-100g reply: scale to `estimated_weight or 100` and report that weight as
the serving weight. -/
def searchGeneralNutrition (reply : Option GeneralReply) (foodName : List Char)
    (estimatedWeight : ℚ) : Option WebData :=
  match reply with
  | none => none
  | some g =>
    let actualWeight := if estimatedWeight = 0 then 100 else estimatedWeight
    let scaleFactor := actualWeight / 100
    some
      { food_name := some (g.food_name.getD foodName)
      , calories := some (g.calories_per_100g.getD 0 * scaleFactor)
      , protein := some (g.protein_per_100g.getD 0 * scaleFactor)
      , carbs := some (g.carbs_per_100g.getD 0 * scaleFactor)
      , fat := some (g.fat_per_100g.getD 0 * scaleFactor)
      , fiber := some (g.fiber_per_100g.getD 0 * scaleFactor)
      , sugar := some (g.sugar_per_100g.getD 0 * scaleFactor)
      , sodium := some (g.sodium_per_100g.getD 0 * scaleFactor / 1000)
      , serving_weight_grams := some actualWeight
      , confidence := some (g.confidence.getD 0.7)
      , source := some (g.source.getD "web_search".toList)
      , data_source := some ("web_search".toList) }

/-- `get_web_search_nutrition(food_name, estimated_weight)`: the keyword
gates pick which search runs; a label passing neither gate yields `None`
without consulting any client. -/
def getWebSearchNutrition (ffReply : Option WebData) (genReply : Option GeneralReply)
    (foodName : List Char) (estimatedWeight : ℚ) : Option WebData :=
  if webIsFastFoodItem foodName then searchFastFoodNutrition ffReply estimatedWeight
  else if needsWebSearch foodName then
    searchGeneralNutrition genReply foodName estimatedWeight
  else none

/-- `enhance_nutrition_with_web_search(recognition_result, existing_calculation)`:
a high-confidence web result replaces the existing calculation under the
`web_search_enhanced` tag; otherwise the existing record is returned with a
`_web_verified` suffix and the two attempt flags. -/
def enhanceNutritionWithWebSearch (ffReply : Option WebData)
    (genReply : Option GeneralReply) (foodName : List Char) (estimatedWeight : ℚ)
    (existing : FoodResult) : FoodResult :=
  match getWebSearchNutrition ffReply genReply foodName estimatedWeight with
  | some wd =>
    if wd.confidence.getD 0 > 0.8 then
      { food_name := some (wd.food_name.getD foodName)
      , weight_grams := wd.serving_weight_grams.getD estimatedWeight
      , total_calories := round1 (wd.calories.getD 0)
      , protein := round1 (wd.protein.getD 0)
      , carbs := round1 (wd.carbs.getD 0)
      , fat := round1 (wd.fat.getD 0)
      , fiber := some (round1 (wd.fiber.getD 0))
      , sugar := some (round1 (wd.sugar.getD 0))
      , sodium := some (round3 (wd.sodium.getD 0))
      , data_source := "web_search_enhanced".toList
      , confidence_score := some (wd.confidence.getD 0.9)
      , brand := some (wd.brand.getD [])
      , source := some (wd.source.getD "web_search".toList) }
    else
      { existing with data_source := existing.data_source ++ "_web_verified".toList
                    , web_search_attempted := some true
                    , web_search_success := some true }
  | none =>
    { existing with data_source := existing.data_source ++ "_web_verified".toList
                  , web_search_attempted := some true
                  , web_search_success := some false }

/-- The record `calculate_calories` builds from a step-1 enhanced-database
hit before optionally attempting web enhancement. -/
def enhancedRecordOf (er : EnhResult) : FoodResult :=
  { weight_grams := er.weight_grams
  , total_calories := er.total_calories
  , protein := er.protein
  , carbs := er.carbs
  , fat := er.fat
  , data_source := "enhanced_database".toList
  , accuracy := some er.accuracy }

/-- A parsed fast-food reply reporting a 250-gram serving at confidence
0.95. -/
def bigMacWebReply : WebData :=
  { serving_weight_grams := some 250, calories := some 1200, confidence := some 0.95 }

/-- `_get_fallback_nutrition`, reached only when `calculate_calories` catches
an exception. -/
def getFallbackNutrition (primaryFood : List Char) (estimatedWeight : ℚ) : FoodResult :=
  { food_name := some primaryFood
  , weight_grams := estimatedWeight
  , total_calories := estimatedWeight * 1.5
  , protein := estimatedWeight * 0.05
  , carbs := estimatedWeight * 0.2
  , fat := estimatedWeight * 0.05
  , fiber := some (estimatedWeight * 0.02)
  , sugar := some (estimatedWeight * 0.08)
  , sodium := some (estimatedWeight * 0.003)
  , data_source := "fallback_estimate".toList }

/-- `calculate_calories(recognition_result)` on the exception-free paths,
with `recognition_result` split into its three used components and the
external clients supplied as inputs. The embedded
`enhance_nutrition_with_web_search` and `get_web_search_nutrition` never
raise (their handlers are modelled by the `Option` replies), so the caller's
inner `except` around the step-1 enhancement is vacuous. -/
def calculateCalories (ext : Externals) (foodName : List Char) (estimatedWeight : ℚ)
    (allFoods : List (List Char)) : FoodResult :=
  match calculateAccurateCalories foodName estimatedWeight with
  | some er =>
    let enhanced := enhancedRecordOf er
    if isFastFoodItem foodName then
      let webEnhanced := enhanceNutritionWithWebSearch ext.fastFoodReply
        ext.generalReply foodName estimatedWeight enhanced
      if webEnhanced.data_source == "web_search_enhanced".toList then webEnhanced
      else enhanced
    else enhanced
  | none =>
    let webStep : Option FoodResult :=
      if isFastFoodItem foodName || isBrandedOrRestaurantItem foodName then
        match getWebSearchNutrition ext.fastFoodReply ext.generalReply foodName
            estimatedWeight with
        | some wd =>
          if wd.confidence.getD 0 > 0.7 then
            some
              { food_name := some (wd.food_name.getD foodName)
              , weight_grams := wd.serving_weight_grams.getD estimatedWeight
              , total_calories := round1 (wd.calories.getD 0)
              , protein := round1 (wd.protein.getD 0)
              , carbs := round1 (wd.carbs.getD 0)
              , fat := round1 (wd.fat.getD 0)
              , fiber := some (round1 (wd.fiber.getD 0))
              , sugar := some (round1 (wd.sugar.getD 0))
              , sodium := some (round3 (wd.sodium.getD 0))
              , data_source := "web_search_direct".toList
              , confidence_score := some (wd.confidence.getD 0.9)
              , brand := some (wd.brand.getD [])
              , source := some (wd.source.getD "web_search".toList) }
          else none
        | none => none
      else none
    match webStep with
    | some r => r
    | none =>
      let nutritionInfo :=
        if allFoods.length > 1 then calcMultiFoodNutrition allFoods estimatedWeight
        else
          match ext.usda with
          | some u => u
          | none => getLocalNutrition foodName estimatedWeight
      { food_name := some foodName
      , weight_grams := estimatedWeight
      , total_calories := round1 nutritionInfo.calories
      , protein := round1 nutritionInfo.protein
      , carbs := round1 nutritionInfo.carbs
      , fat := round1 nutritionInfo.fat
      , fiber := some (round1 nutritionInfo.fiber)
      , sugar := some (round1 nutritionInfo.sugar)
      , sodium := some (round1 nutritionInfo.sodium)
      , data_source := "calculated".toList }

/-- The nutrition dictionary handed to `get_calorie_breakdown`; every key is
read with `.get`, so every field is optional. -/
structure NutritionDict where
  protein : Option ℚ := none
  carbs : Option ℚ := none
  fat : Option ℚ := none
  total_calories : Option ℚ := none
deriving DecidableEq

/-- The dictionary returned by `get_calorie_breakdown`: all six keys are
always present. -/
structure Breakdown where
  protein_calories : ℚ
  carb_calories : ℚ
  fat_calories : ℚ
  protein_percentage : ℚ
  carb_percentage : ℚ
  fat_percentage : ℚ
deriving DecidableEq

/-- The effective total used by `get_calorie_breakdown`: the `total_calories`
key when present, otherwise the macro-calorie sum. -/
def effectiveTotalCalories (ni : NutritionDict) : ℚ :=
  ni.total_calories.getD (ni.protein.getD 0 * 4 + ni.carbs.getD 0 * 4 + ni.fat.getD 0 * 9)

/-- `get_calorie_breakdown(nutrition_info)`. -/
def getCalorieBreakdown (ni : NutritionDict) : Breakdown :=
  let proteinCalories := ni.protein.getD 0 * 4
  let carbCalories := ni.carbs.getD 0 * 4
  let fatCalories := ni.fat.getD 0 * 9
  let totalCalories := effectiveTotalCalories ni
  { protein_calories := round1 proteinCalories
  , carb_calories := round1 carbCalories
  , fat_calories := round1 fatCalories
  , protein_percentage :=
      round1 (if totalCalories > 0 then proteinCalories / totalCalories * 100 else 0)
  , carb_percentage :=
      round1 (if totalCalories > 0 then carbCalories / totalCalories * 100 else 0)
  , fat_percentage :=
      round1 (if totalCalories > 0 then fatCalories / totalCalories * 100 else 0) }

/-! `hyper_accurate_calculator.py` : `_estimate_weight_distribution` -/

/-- The main-dish keywords of `_estimate_weight_distribution`. -/
def mainDishes : List (List Char) :=
  ["rice".toList, "pasta".toList, "potato".toList, "bread".toList, "meat".toList,
   "chicken".toList, "beef".toList, "fish".toList]

/-- The vegetable keywords of `_estimate_weight_distribution`. -/
def vegetableWords : List (List Char) :=
  ["broccoli".toList, "carrots".toList, "spinach".toList, "lettuce".toList,
   "tomato".toList, "onion".toList]

/-- The sauce keywords of `_estimate_weight_distribution`. -/
def sauceWords : List (List Char) :=
  ["sauce".toList, "salsa".toList, "dressing".toList, "gravy".toList]

/-- Group-count accumulation of `_estimate_weight_distribution`: a food counts
1 toward its group, and an unmatched food counts 0.5 toward mains. -/
def portionCounts (foods : List (List Char)) : ℚ × ℚ × ℚ :=
  foods.foldl
    (fun acc food =>
      let fl := lowerStr food
      if mainDishes.any (fun m => hasSub m fl) then (acc.1 + 1, acc.2.1, acc.2.2)
      else if vegetableWords.any (fun v => hasSub v fl) then (acc.1, acc.2.1 + 1, acc.2.2)
      else if sauceWords.any (fun s => hasSub s fl) then (acc.1, acc.2.1, acc.2.2 + 1)
      else (acc.1 + 0.5, acc.2.1, acc.2.2))
    (0, 0, 0)

/-- `_estimate_weight_distribution(foods, total_weight)`: the per-label weight
assignment (labels kept in list order). -/
def estimateWeightDistribution (foods : List (List Char)) (totalWeight : ℚ) :
    List (List Char × ℚ) :=
  let counts := portionCounts foods
  let mainWeight := counts.1
  let veggieWeight := counts.2.1
  let sauceWeight := counts.2.2
  let totalPortions := mainWeight + veggieWeight + sauceWeight
  if totalPortions = 0 then
    foods.map (fun f => (f, totalWeight / (foods.length : ℚ)))
  else
    foods.map (fun f =>
      let fl := lowerStr f
      if mainDishes.any (fun m => hasSub m fl) then
        (f, mainWeight / totalPortions * totalWeight * 0.5)
      else if vegetableWords.any (fun v => hasSub v fl) then
        (f, veggieWeight / totalPortions * totalWeight * 0.3)
      else if sauceWords.any (fun s => hasSub s fl) then
        (f, sauceWeight / totalPortions * totalWeight * 0.1)
      else (f, totalWeight / (foods.length : ℚ) * 0.6))

/-! `app.py` : `classify_food_category` -/

/-- The grain keyword group of `classify_food_category` (checked first). -/
def grainWords : List (List Char) :=
  ["pizza".toList, "pasta".toList, "bread".toList, "rice".toList, "noodle".toList,
   "bagel".toList, "cereal".toList, "oatmeal".toList, "quinoa".toList, "barley".toList,
   "wheat".toList, "tortilla".toList, "wrap".toList, "sandwich".toList]

/-- The protein keyword group of `classify_food_category` (checked second). -/
def proteinWords : List (List Char) :=
  ["chicken".toList, "beef".toList, "pork".toList, "fish".toList, "meat".toList,
   "turkey".toList, "ham".toList, "salami".toList, "cold cut".toList, "deli".toList,
   "sausage".toList, "bacon".toList, "egg".toList, "tofu".toList, "beans".toList,
   "lentil".toList, "salmon".toList, "tuna".toList]

/-- The fruit keyword group of `classify_food_category`. -/
def fruitWords : List (List Char) :=
  ["apple".toList, "banana".toList, "orange".toList, "fruit".toList, "berry".toList,
   "grape".toList, "mango".toList, "pineapple".toList, "strawberry".toList,
   "blueberry".toList, "cherry".toList, "peach".toList, "pear".toList, "kiwi".toList]

/-- The vegetable keyword group of `classify_food_category`. -/
def vegWords : List (List Char) :=
  ["salad".toList, "vegetable".toList, "broccoli".toList, "carrot".toList,
   "spinach".toList, "lettuce".toList, "tomato".toList, "pepper".toList,
   "onion".toList, "potato".toList, "sweet potato".toList, "corn".toList,
   "peas".toList, "green".toList, "cabbage".toList]

/-- The dairy keyword group of `classify_food_category`. -/
def dairyWords : List (List Char) :=
  ["milk".toList, "cheese".toList, "yogurt".toList, "butter".toList, "cream".toList,
   "cottage cheese".toList, "mozzarella".toList, "cheddar".toList, "parmesan".toList]

/-- The snack keyword group of `classify_food_category`. -/
def snackWords : List (List Char) :=
  ["chips".toList, "crackers".toList, "pretzels".toList, "popcorn".toList,
   "nuts".toList, "trail mix".toList, "granola".toList]

/-- The dessert keyword group of `classify_food_category`. -/
def dessertWords : List (List Char) :=
  ["cake".toList, "cookie".toList, "ice cream".toList, "candy".toList,
   "chocolate".toList, "brownie".toList, "pie".toList, "donut".toList,
   "muffin".toList, "sweet".toList, "dessert".toList]

/-- The fast-food keyword group of `classify_food_category`. -/
def fastFoodWords : List (List Char) :=
  ["burger".toList, "fries".toList, "mcdonalds".toList, "subway".toList,
   "kfc".toList, "taco".toList, "burrito".toList]

/-- The beverage keyword group of `classify_food_category`. -/
def beverageWords : List (List Char) :=
  ["coffee".toList, "tea".toList, "soda".toList, "juice".toList, "water".toList,
   "beer".toList, "wine".toList, "smoothie".toList, "shake".toList]

/-- `classify_food_category(food_name)`: the groups are tested in the fixed
source order, first hit wins. -/
def classifyFoodCategory (foodName : List Char) : List Char :=
  let fl := lowerStr foodName
  if grainWords.any (fun w => hasSub w fl) then "grain".toList
  else if proteinWords.any (fun w => hasSub w fl) then "protein".toList
  else if fruitWords.any (fun w => hasSub w fl) then "fruit".toList
  else if vegWords.any (fun w => hasSub w fl) then "vegetable".toList
  else if dairyWords.any (fun w => hasSub w fl) then "dairy".toList
  else if snackWords.any (fun w => hasSub w fl) then "snack".toList
  else if dessertWords.any (fun w => hasSub w fl) then "dessert".toList
  else if fastFoodWords.any (fun w => hasSub w fl) then "fast_food".toList
  else if beverageWords.any (fun w => hasSub w fl) then "beverage".toList
  else "other".toList

/-! `app.py` : learning adjustments -/

/-- A stored `UserFeedback` correction row; numeric columns are nullable in
the schema, so they are optional. `createdAt` stands for
`created_at.timestamp()`. -/
structure Correction where
  ai_food_name : Option (List Char) := none
  ai_weight_grams : Option ℚ := none
  ai_calories : Option ℚ := none
  corrected_food_name : Option (List Char) := none
  corrected_weight_grams : Option ℚ := none
  corrected_calories : Option ℚ := none
  createdAt : ℚ := 0
deriving DecidableEq

/-- Python truthiness of a nullable numeric column: `None` and `0` are falsy. -/
def truthyQ : Option ℚ → Bool
  | none => false
  | some x => if x = 0 then false else true

/-- The `has_portion_change` test shared by `correction_priority` and
`apply_learning_adjustments`: both weights truthy and relative weight change
above 0.2.  The guards make the division reachable only for a nonzero
`ai_weight_grams`. -/
def hasPortionChange (c : Correction) : Bool :=
  truthyQ c.corrected_weight_grams && truthyQ c.ai_weight_grams &&
    decide (|c.corrected_weight_grams.getD 0 - c.ai_weight_grams.getD 0| /
      c.ai_weight_grams.getD 0 > 0.2)

/-- The `has_calorie_change` test shared by `correction_priority` and
`apply_learning_adjustments`: both calorie columns truthy and relative calorie
change above 0.5. -/
def hasCalorieChange (c : Correction) : Bool :=
  truthyQ c.ai_calories && truthyQ c.corrected_calories &&
    decide (|c.corrected_calories.getD 0 - c.ai_calories.getD 0| /
      c.ai_calories.getD 0 > 0.5)

/-- `correction_priority(correction)` from `get_learning_context`. -/
def correctionPriority (c : Correction) : ℚ :=
  (if hasCalorieChange c then 100 else 0) + (if hasPortionChange c then 50 else 0) +
    c.createdAt / 1000000

/-- The mutable analysis dictionary passed to `apply_learning_adjustments`. -/
structure AnalysisResult where
  food_name : Option (List Char) := none
  weight_grams : ℚ
  calories : ℚ
  learning_applied : Option (List Char) := none
deriving DecidableEq

/-- Python `'_'.join(learning_types)`. -/
def joinMarkers : List (List Char) → List Char
  | [] => []
  | [m] => m
  | m :: rest => m ++ "_".toList ++ joinMarkers rest

/-- Step 4 of `apply_learning_adjustments`: name correction, then either the
portion branch or (only otherwise) the calorie-density branch, applied from
the single top-ranked correction; fired markers are joined into
`learning_applied` behind the exact/fuzzy tag. -/
def applyStep4 (r : AnalysisResult) (c : Correction) (correctionType : List Char) :
    AnalysisResult :=
  let afterName : AnalysisResult × List (List Char) :=
    if c.corrected_food_name ≠ c.ai_food_name then
      ({ r with food_name := c.corrected_food_name }, ["name_correction".toList])
    else (r, [])
  let r1 := afterName.1
  let afterAdjust : AnalysisResult × List (List Char) :=
    if hasPortionChange c then
      let weightRatio := c.corrected_weight_grams.getD 0 / c.ai_weight_grams.getD 0
      if 0.3 ≤ weightRatio ∧ weightRatio ≤ 5.0 then
        ({ r1 with weight_grams := r1.weight_grams * weightRatio
                 , calories := r1.calories * weightRatio },
         afterName.2 ++ ["portion_adjustment".toList])
      else (r1, afterName.2)
    else if hasCalorieChange c then
      let calorieRatio := c.corrected_calories.getD 0 / c.ai_calories.getD 0
      ({ r1 with calories := r1.calories * calorieRatio },
       afterName.2 ++ ["calorie_correction".toList])
    else (r1, afterName.2)
  let r2 := afterAdjust.1
  if afterAdjust.2.isEmpty then r2
  else
    let tag := correctionType ++ "_".toList ++ joinMarkers afterAdjust.2
    { r2 with learning_applied := some tag }

/-- The per-record calorie ratios kept by the category step: both calorie
columns truthy and the ratio inside [0.3, 3.0]; other records are excluded. -/
def categoryRatios (similar : List Correction) : List ℚ :=
  similar.filterMap (fun c =>
    if truthyQ c.ai_calories && truthyQ c.corrected_calories then
      let ratio := c.corrected_calories.getD 0 / c.ai_calories.getD 0
      if 0.3 ≤ ratio ∧ ratio ≤ 3.0 then some ratio else none
    else none)

/-- The average of the kept category ratios, when any were kept. -/
def categoryAvg (similar : List Correction) : Option ℚ :=
  let ratios := categoryRatios similar
  if ratios.isEmpty then none else some (ratios.sum / (ratios.length : ℚ))

/-- The category-based correction step of `apply_learning_adjustments`: with
at least 3 similar corrections and an average kept ratio deviating from 1 by
more than 0.1, multiply calories by the average and overwrite
`learning_applied`. -/
def applyCategoryStep (r : AnalysisResult) (similar : List Correction) : AnalysisResult :=
  if 3 ≤ similar.length then
    match categoryAvg similar with
    | some avg =>
      if |avg - 1| > 0.1 then
        { r with calories := r.calories * avg
               , learning_applied := some ("category_calorie_adjustment".toList) }
      else r
    | none => r
  else r

/-- `apply_learning_adjustments(analysis_result, user_id)`, with the three
correction lists of `get_learning_context` supplied as inputs (the store
query itself is outside the embedded fragment). -/
def applyLearningAdjustments (r : AnalysisResult) (exactCorrections fuzzyCorrections
    similarCorrections : List Correction) : AnalysisResult :=
  let correctionsToUse :=
    if exactCorrections.isEmpty then fuzzyCorrections else exactCorrections
  let correctionType :=
    if exactCorrections.isEmpty then "fuzzy".toList else "exact".toList
  let r1 :=
    match correctionsToUse with
    | [] => r
    | c :: _ => applyStep4 r c correctionType
  applyCategoryStep r1 similarCorrections

/-! Helper lemmas -/

theorem pyRound_intCast (z : ℤ) : pyRound (z : ℚ) = z := by
  simp [pyRound, Int.floor_intCast]

theorem round1_eq_self (q : ℚ) (z : ℤ) (h : q * 10 = (z : ℚ)) : round1 q = q := by
  rw [round1, h, pyRound_intCast]
  field_simp at h ⊢
  linarith

theorem round3_eq_self (q : ℚ) (z : ℤ) (h : q * 1000 = (z : ℚ)) : round3 q = q := by
  rw [round3, h, pyRound_intCast]
  field_simp at h ⊢
  linarith

theorem lookupEnh_mem (n : List Char) (e : EnhEntry)
    (h : getEnhancedNutritionData n = some e) :
    e ∈ enhancedFoodDatabase.map Prod.snd := by
  simp only [getEnhancedNutritionData] at h
  split at h
  next p hp =>
    injection h with h'
    subst h'
    exact List.mem_map_of_mem _ (List.mem_of_find?_eq_some hp)
  next =>
    split at h
    next p hp =>
      injection h with h'
      subst h'
      exact List.mem_map_of_mem _ (List.mem_of_find?_eq_some hp)
    next =>
      split at h
      next f hf =>
        rw [Option.map_eq_some'] at h
        obtain ⟨p, hp, h2⟩ := h
        subst h2
        exact List.mem_map_of_mem _ (List.mem_of_find?_eq_some hp)
      next => exact absurd h (by simp)

theorem enhTypicalCaloriesIntegral :
    ((enhancedFoodDatabase.map Prod.snd).all
      (fun x => x.typical_calories.den == 1)) = true := by decide

theorem round1_typical (e : EnhEntry) (he : e ∈ enhancedFoodDatabase.map Prod.snd) :
    round1 e.typical_calories = e.typical_calories := by
  have hall := List.all_eq_true.mp enhTypicalCaloriesIntegral e he
  have hden : e.typical_calories.den = 1 := by simpa using hall
  have hz : (e.typical_calories.num : ℚ) = e.typical_calories :=
    Rat.coe_int_num_of_den_eq_one hden
  refine round1_eq_self _ (e.typical_calories.num * 10) ?_
  push_cast
  rw [hz]

/-! Claim C5 -/

/-- C5: for every weight w > 0 and every label the brand registry resolves,
the computed calories scale the entry's per-100g density by w/100 (rounded),
except at the entry's typical weight, where the stored typical calories are
returned exactly. -/
theorem C5_thm (w : ℚ) (_hw : 0 < w) (n : List Char) (e : EnhEntry)
    (hl : getEnhancedNutritionData n = some e) :
    ∃ r, calculateAccurateCalories n w = some r ∧ r.weight_grams = w ∧
      r.total_calories = (if w = e.typical_weight then e.typical_calories
        else round1 (e.calories_per_100g * (w / 100))) := by
  unfold calculateAccurateCalories
  rw [hl]
  by_cases hweq : w = e.typical_weight
  · exact ⟨_, rfl, rfl, by
      simp only [if_pos hweq]
      exact round1_typical e (lookupEnh_mem n e hl)⟩
  · exact ⟨_, rfl, rfl, by simp only [if_neg hweq]⟩

/-- C5 witness: the big mac entry at its typical weight 222g yields exactly
the stored 570 typical calories. -/
theorem C5_witness :
    (0 : ℚ) < 222 ∧ ∃ r, calculateAccurateCalories "big mac".toList 222 = some r ∧
      r.weight_grams = 222 ∧ r.total_calories = 570 := by
  have hl : getEnhancedNutritionData "big mac".toList =
      some ⟨257, 13, 20, 17, 222, 570⟩ := rfl
  refine ⟨by norm_num, ?_⟩
  obtain ⟨r, hr, hwg, hc⟩ := C5_thm 222 (by norm_num) "big mac".toList _ hl
  exact ⟨r, hr, hwg, by rw [hc]; norm_num⟩

/-! Claim C8 -/

/-- C8: the classifier maps "chicken sandwich" to `grain`, not `protein`,
because the grain group (containing "sandwich") is tested before the protein
group, which would also match via "chicken". -/
theorem C8_thm :
    classifyFoodCategory "chicken sandwich".toList = "grain".toList ∧
      proteinWords.any (fun w => hasSub w (lowerStr "chicken sandwich".toList)) = true := by
  decide

/-! Claim C10 -/

/-- C10: the breakdown is total and, whenever the effective total calories is
not positive (in particular when every macro field is zero or absent), all
three percentage fields are 0 instead of a division by zero. -/
theorem C10_thm (ni : NutritionDict) (h : effectiveTotalCalories ni ≤ 0) :
    (getCalorieBreakdown ni).protein_percentage = 0 ∧
      (getCalorieBreakdown ni).carb_percentage = 0 ∧
      (getCalorieBreakdown ni).fat_percentage = 0 := by
  have hng : ¬ (effectiveTotalCalories ni > 0) := by linarith
  have h0 : round1 0 = 0 := round1_eq_self 0 0 (by norm_num)
  simp [getCalorieBreakdown, hng, h0]

/-- C10 witness: the empty nutrition dictionary (every key absent) has
effective total 0, and all three percentages come out 0. -/
theorem C10_witness :
    effectiveTotalCalories {} ≤ 0 ∧
      ((getCalorieBreakdown {}).protein_percentage = 0 ∧
        (getCalorieBreakdown {}).carb_percentage = 0 ∧
        (getCalorieBreakdown {}).fat_percentage = 0) := by
  have he : effectiveTotalCalories {} ≤ 0 := by
    simp [effectiveTotalCalories]
  exact ⟨he, C10_thm {} he⟩

/-! Claim C2 -/

theorem sum_map_const {α : Type} (l : List α) (c : ℚ) :
    ((l.map (fun f => (f, c))).map Prod.snd).sum = (l.length : ℚ) * c := by
  induction l with
  | nil => simp
  | cons x xs ih =>
    simp only [List.map_cons, List.sum_cons, List.length_cons]
    rw [ih]
    push_cast
    ring

/-- C2 counterexample: for the label list [rice, broccoli] and total weight
100, the hyper-accurate weight-distribution heuristic assigns 25 + 15 = 40
grams in total, not 100. -/
theorem C2_cex :
    ((estimateWeightDistribution ["rice".toList, "broccoli".toList] 100).map
      Prod.snd).sum = 40 ∧ (40 : ℚ) ≠ 100 := by
  constructor
  · simp +decide [estimateWeightDistribution, portionCounts, List.foldl]
    norm_num
  · norm_num

/-- C2 as amended: the equal-division weight assignment used by
`_calculate_multi_food_nutrition` (and by the `total_portions == 0` branch of
the hyper-accurate heuristic) does distribute exactly the requested total:
for every list of N ≥ 2 labels the per-label weights sum to the total. -/
theorem C2_thm (allFoods : List (List Char)) (totalWeight : ℚ)
    (h : 2 ≤ allFoods.length) :
    ((equalWeights allFoods totalWeight).map Prod.snd).sum = totalWeight := by
  have hne : (allFoods.length : ℚ) ≠ 0 := by
    have : 0 < allFoods.length := by omega
    exact_mod_cast Nat.pos_iff_ne_zero.mp this
  unfold equalWeights
  rw [sum_map_const]
  field_simp

/-- C2 witness: two labels with total weight 7 receive 3.5 grams each,
summing back to 7. -/
theorem C2_witness :
    2 ≤ (["a".toList, "b".toList] : List (List Char)).length ∧
      ((equalWeights ["a".toList, "b".toList] 7).map Prod.snd).sum = 7 :=
  ⟨by norm_num, C2_thm ["a".toList, "b".toList] 7 (by norm_num)⟩

/-! Adjuster helper lemmas -/

theorem applyStep4_weight_of_not_portion (r : AnalysisResult) (c : Correction)
    (ct : List Char) (h : hasPortionChange c = false) :
    (applyStep4 r c ct).weight_grams = r.weight_grams := by
  by_cases hname : c.corrected_food_name ≠ c.ai_food_name <;>
    by_cases hc : hasCalorieChange c <;>
      simp [applyStep4, h, hname, hc]

theorem applyStep4_skip (r : AnalysisResult) (c : Correction) (ct : List Char)
    (h1 : hasPortionChange c = false) (h2 : hasCalorieChange c = false) :
    (applyStep4 r c ct).weight_grams = r.weight_grams ∧
      (applyStep4 r c ct).calories = r.calories := by
  by_cases hname : c.corrected_food_name ≠ c.ai_food_name <;>
    simp [applyStep4, h1, h2, hname]

theorem applyStep4_portion (r : AnalysisResult) (c : Correction) (ct : List Char)
    (hp : hasPortionChange c = true)
    (hr : 0.3 ≤ c.corrected_weight_grams.getD 0 / c.ai_weight_grams.getD 0 ∧
      c.corrected_weight_grams.getD 0 / c.ai_weight_grams.getD 0 ≤ 5.0) :
    (applyStep4 r c ct).weight_grams =
      r.weight_grams * (c.corrected_weight_grams.getD 0 / c.ai_weight_grams.getD 0) ∧
    (applyStep4 r c ct).calories =
      r.calories * (c.corrected_weight_grams.getD 0 / c.ai_weight_grams.getD 0) := by
  by_cases hname : c.corrected_food_name ≠ c.ai_food_name <;>
    simp [applyStep4, hp, hr, hname]

theorem applyStep4_portion_out (r : AnalysisResult) (c : Correction) (ct : List Char)
    (hp : hasPortionChange c = true)
    (hr : ¬ (0.3 ≤ c.corrected_weight_grams.getD 0 / c.ai_weight_grams.getD 0 ∧
      c.corrected_weight_grams.getD 0 / c.ai_weight_grams.getD 0 ≤ 5.0)) :
    (applyStep4 r c ct).weight_grams = r.weight_grams ∧
      (applyStep4 r c ct).calories = r.calories := by
  by_cases hname : c.corrected_food_name ≠ c.ai_food_name <;>
    simp [applyStep4, hp, hr, hname]

theorem applyStep4_calorie (r : AnalysisResult) (c : Correction) (ct : List Char)
    (hp : hasPortionChange c = false) (hc : hasCalorieChange c = true) :
    (applyStep4 r c ct).calories =
      r.calories * (c.corrected_calories.getD 0 / c.ai_calories.getD 0) ∧
    (applyStep4 r c ct).weight_grams = r.weight_grams := by
  by_cases hname : c.corrected_food_name ≠ c.ai_food_name <;>
    simp [applyStep4, hp, hc, hname]

/-! Claim C6 -/

/-- C6: in step 4, a weight change above the 0.2 threshold makes the
correction a portion correction: the weight ratio is applied to both weight
and calories exactly when it lies in [0.3, 5.0], and the calorie-density
branch is never reached; only with no portion change and a calorie change
above 0.5 are calories alone rescaled, the weight staying put. -/
theorem C6_thm (r : AnalysisResult) (c : Correction) (ct : List Char) :
    (hasPortionChange c = true →
      ((0.3 ≤ c.corrected_weight_grams.getD 0 / c.ai_weight_grams.getD 0 ∧
          c.corrected_weight_grams.getD 0 / c.ai_weight_grams.getD 0 ≤ 5.0) →
        (applyStep4 r c ct).weight_grams =
          r.weight_grams * (c.corrected_weight_grams.getD 0 / c.ai_weight_grams.getD 0) ∧
        (applyStep4 r c ct).calories =
          r.calories * (c.corrected_weight_grams.getD 0 / c.ai_weight_grams.getD 0)) ∧
      (¬ (0.3 ≤ c.corrected_weight_grams.getD 0 / c.ai_weight_grams.getD 0 ∧
          c.corrected_weight_grams.getD 0 / c.ai_weight_grams.getD 0 ≤ 5.0) →
        (applyStep4 r c ct).weight_grams = r.weight_grams ∧
        (applyStep4 r c ct).calories = r.calories)) ∧
    (hasPortionChange c = false → hasCalorieChange c = true →
      (applyStep4 r c ct).calories =
        r.calories * (c.corrected_calories.getD 0 / c.ai_calories.getD 0) ∧
      (applyStep4 r c ct).weight_grams = r.weight_grams) :=
  ⟨fun hp => ⟨fun hr => applyStep4_portion r c ct hp hr,
              fun hr => applyStep4_portion_out r c ct hp hr⟩,
   fun hp hc => applyStep4_calorie r c ct hp hc⟩

/-- C6 witness: the spec's example — ai weight 100 vs corrected 105 (5%, not
a portion change), ai calories 200 vs corrected 400 (ratio 2) — doubles
calories to 400 and leaves the weight at 100. -/
theorem C6_witness :
    (applyStep4 ⟨some "x".toList, 100, 200, none⟩
        ⟨some "x".toList, some 100, some 200, some "x".toList, some 105, some 400, 0⟩
        "exact".toList).calories = 400 ∧
    (applyStep4 ⟨some "x".toList, 100, 200, none⟩
        ⟨some "x".toList, some 100, some 200, some "x".toList, some 105, some 400, 0⟩
        "exact".toList).weight_grams = 100 := by
  have hp : hasPortionChange
      ⟨some "x".toList, some 100, some 200, some "x".toList, some 105, some 400, 0⟩ = false := by
    simp [hasPortionChange, truthyQ]
    norm_num
  have hc : hasCalorieChange
      ⟨some "x".toList, some 100, some 200, some "x".toList, some 105, some 400, 0⟩ = true := by
    simp [hasCalorieChange, truthyQ]
    norm_num
  have h := (C6_thm ⟨some "x".toList, 100, 200, none⟩
      ⟨some "x".toList, some 100, some 200, some "x".toList, some 105, some 400, 0⟩
      "exact".toList).2 hp hc
  refine ⟨?_, h.2⟩
  rw [h.1]
  norm_num

/-! Claim C9 -/

/-- C9: with a zero or missing `ai_weight_grams` (resp. `ai_calories`) the
portion (resp. calorie-density) test is false: the guarded division is
skipped, the corresponding adjustment does not fire, the remaining steps run
unchanged, and the fuzzy-ranking priority degrades to its recency tiebreaker. -/
theorem C9_thm (r : AnalysisResult) (c : Correction) (ct : List Char) :
    (truthyQ c.ai_weight_grams = false →
      hasPortionChange c = false ∧
      (applyStep4 r c ct).weight_grams = r.weight_grams) ∧
    (truthyQ c.ai_calories = false →
      hasCalorieChange c = false ∧
      (hasPortionChange c = false → (applyStep4 r c ct).calories = r.calories)) ∧
    (truthyQ c.ai_weight_grams = false → truthyQ c.ai_calories = false →
      correctionPriority c = c.createdAt / 1000000) := by
  refine ⟨fun hw => ?_, fun hcal => ?_, fun hw hcal => ?_⟩
  · have hp : hasPortionChange c = false := by simp [hasPortionChange, hw]
    exact ⟨hp, applyStep4_weight_of_not_portion r c ct hp⟩
  · have hc : hasCalorieChange c = false := by simp [hasCalorieChange, hcal]
    exact ⟨hc, fun hp => (applyStep4_skip r c ct hp hc).2⟩
  · have hp : hasPortionChange c = false := by simp [hasPortionChange, hw]
    have hc : hasCalorieChange c = false := by simp [hasCalorieChange, hcal]
    simp [correctionPriority, hp, hc]

/-- C9 witness: a correction row with `ai_weight_grams = 0` and no
`ai_calories` skips both adjustments and keeps only the recency tiebreaker in
its priority. -/
theorem C9_witness :
    (hasPortionChange ⟨some "soup".toList, some 0, none, some "stew".toList,
        some 250, some 300, 2000000⟩ = false ∧
      (applyStep4 ⟨some "soup".toList, 180, 90, none⟩
        ⟨some "soup".toList, some 0, none, some "stew".toList, some 250, some 300, 2000000⟩
        "exact".toList).weight_grams = 180) ∧
    correctionPriority ⟨some "soup".toList, some 0, none, some "stew".toList,
        some 250, some 300, 2000000⟩ = 2 := by
  have hw : truthyQ (some (0 : ℚ)) = false := by simp [truthyQ]
  have h1 := (C9_thm ⟨some "soup".toList, 180, 90, none⟩
      ⟨some "soup".toList, some 0, none, some "stew".toList, some 250, some 300, 2000000⟩
      "exact".toList).1 hw
  have h3 := (C9_thm ⟨some "soup".toList, 180, 90, none⟩
      ⟨some "soup".toList, some 0, none, some "stew".toList, some 250, some 300, 2000000⟩
      "exact".toList).2.2 hw (by simp [truthyQ])
  exact ⟨h1, by rw [h3]; norm_num⟩

/-! Claim C7 -/

/-- C7: the category step multiplies calories by the average of the kept
(in-range) per-record ratios exactly when at least 3 category corrections
exist and that average deviates from 1 by more than 0.1; with fewer than 3
records, or a small deviation, the record passes through unchanged. -/
theorem C7_thm (r : AnalysisResult) (similar : List Correction) (m : ℚ)
    (hm : categoryAvg similar = some m) :
    (3 ≤ similar.length → 0.1 < |m - 1| →
      applyCategoryStep r similar =
        { r with calories := r.calories * m
               , learning_applied := some ("category_calorie_adjustment".toList) }) ∧
    (similar.length < 3 → applyCategoryStep r similar = r) ∧
    (|m - 1| ≤ 0.1 → applyCategoryStep r similar = r) := by
  refine ⟨fun h3 hdev => ?_, fun h3 => ?_, fun hdev => ?_⟩
  · simp [applyCategoryStep, h3, hm, hdev]
  · simp [applyCategoryStep, Nat.not_le.mpr h3]
  · have : ¬ (0.1 < |m - 1|) := by linarith
    simp [applyCategoryStep, hm, this]

/-- C7 witness: three category corrections with ratio 1.5 each (average 1.5,
deviation 0.5 > 0.1) rescale 250 calories to 375 and set the category
marker; the same step with only two such records is a no-op. -/
theorem C7_witness :
    (applyCategoryStep ⟨some "rice".toList, 300, 250, none⟩
        [⟨none, none, some 100, none, none, some 150, 0⟩,
         ⟨none, none, some 100, none, none, some 150, 0⟩,
         ⟨none, none, some 100, none, none, some 150, 0⟩] =
      { food_name := some "rice".toList, weight_grams := 300,
        calories := 250 * (3/2),
        learning_applied := some ("category_calorie_adjustment".toList) }) ∧
    (applyCategoryStep ⟨some "rice".toList, 300, 250, none⟩
        [⟨none, none, some 100, none, none, some 150, 0⟩,
         ⟨none, none, some 100, none, none, some 150, 0⟩] =
      ⟨some "rice".toList, 300, 250, none⟩) := by
  have havg : categoryAvg
      [(⟨none, none, some 100, none, none, some 150, 0⟩ : Correction),
       ⟨none, none, some 100, none, none, some 150, 0⟩,
       ⟨none, none, some 100, none, none, some 150, 0⟩] = some (3/2) := by
    simp only [categoryAvg, categoryRatios, truthyQ, List.filterMap_cons,
      List.filterMap_nil]
    norm_num
  have havg2 : categoryAvg
      [(⟨none, none, some 100, none, none, some 150, 0⟩ : Correction),
       ⟨none, none, some 100, none, none, some 150, 0⟩] = some (3/2) := by
    simp only [categoryAvg, categoryRatios, truthyQ, List.filterMap_cons,
      List.filterMap_nil]
    norm_num
  constructor
  · have hdev : (0.1 : ℚ) < |3/2 - 1| := by
      rw [show (3/2 : ℚ) - 1 = 1/2 by norm_num, abs_of_pos (by norm_num : (0:ℚ) < 1/2)]
      norm_num
    exact (C7_thm ⟨some "rice".toList, 300, 250, none⟩ _ (3/2) havg).1
      (by norm_num) hdev
  · exact (C7_thm ⟨some "rice".toList, 300, 250, none⟩ _ (3/2) havg2).2.1 (by norm_num)

/-! Claim C4 -/

/-- C4 counterexample: a step-4 calorie correction records
`exact_calorie_correction`, but when the category adjustment also fires the
final provenance is exactly `category_calorie_adjustment`: the earlier marker
is discarded, not concatenated. -/
theorem C4_cex :
    (applyStep4 ⟨some "pasta salad".toList, 300, 250, none⟩
        ⟨some "pasta salad".toList, some 100, some 200, some "pasta salad".toList,
          some 100, some 400, 0⟩ "exact".toList).learning_applied =
      some ("exact_calorie_correction".toList) ∧
    (applyLearningAdjustments ⟨some "pasta salad".toList, 300, 250, none⟩
        [⟨some "pasta salad".toList, some 100, some 200, some "pasta salad".toList,
          some 100, some 400, 0⟩] []
        [⟨none, none, some 100, none, none, some 150, 0⟩,
         ⟨none, none, some 100, none, none, some 150, 0⟩,
         ⟨none, none, some 100, none, none, some 150, 0⟩]).learning_applied =
      some ("category_calorie_adjustment".toList) ∧
    hasSub "calorie_correction".toList "category_calorie_adjustment".toList = false := by
  have hstep : (applyStep4 ⟨some "pasta salad".toList, 300, 250, none⟩
      ⟨some "pasta salad".toList, some 100, some 200, some "pasta salad".toList,
        some 100, some 400, 0⟩ "exact".toList).learning_applied =
      some ("exact_calorie_correction".toList) := by
    simp only [applyStep4, hasPortionChange, hasCalorieChange, truthyQ, joinMarkers]
    norm_num
    rfl
  have havg : categoryAvg
      [(⟨none, none, some 100, none, none, some 150, 0⟩ : Correction),
       ⟨none, none, some 100, none, none, some 150, 0⟩,
       ⟨none, none, some 100, none, none, some 150, 0⟩] = some (3/2) := by
    simp only [categoryAvg, categoryRatios, truthyQ, List.filterMap_cons,
      List.filterMap_nil]
    norm_num
  refine ⟨hstep, ?_, by decide⟩
  have habs : |(1 : ℚ)/2| = 1/2 := abs_of_pos (by norm_num)
  simp only [applyLearningAdjustments]
  simp [applyCategoryStep, havg]
  norm_num [habs]

/-- C4 as amended: the step-4 markers are concatenated into one provenance
string, but the category adjustment, when it fires, overwrites
`learning_applied` with `category_calorie_adjustment`, discarding any earlier
exact/fuzzy markers; the concatenated step-4 string survives only when the
category step does not fire. -/
theorem C4_thm (r : AnalysisResult) (exactCorrections fuzzyCorrections
    similarCorrections : List Correction) (m : ℚ)
    (hm : categoryAvg similarCorrections = some m)
    (h3 : 3 ≤ similarCorrections.length) (hdev : 0.1 < |m - 1|) :
    (applyLearningAdjustments r exactCorrections fuzzyCorrections
      similarCorrections).learning_applied =
      some ("category_calorie_adjustment".toList) := by
  simp only [applyLearningAdjustments]
  simp [applyCategoryStep, hm, h3, hdev]

/-- C4 witness: the amended statement at the counterexample's inputs. -/
theorem C4_witness :
    (applyLearningAdjustments ⟨some "pasta salad".toList, 300, 250, none⟩ [] []
        [⟨none, none, some 100, none, none, some 150, 0⟩,
         ⟨none, none, some 100, none, none, some 150, 0⟩,
         ⟨none, none, some 100, none, none, some 150, 0⟩]).learning_applied =
      some ("category_calorie_adjustment".toList) := by
  have havg : categoryAvg
      [(⟨none, none, some 100, none, none, some 150, 0⟩ : Correction),
       ⟨none, none, some 100, none, none, some 150, 0⟩,
       ⟨none, none, some 100, none, none, some 150, 0⟩] = some (3/2) := by
    simp only [categoryAvg, categoryRatios, truthyQ, List.filterMap_cons,
      List.filterMap_nil]
    norm_num
  have hdev : (0.1 : ℚ) < |3/2 - 1| := by
    rw [show (3/2 : ℚ) - 1 = 1/2 by norm_num, abs_of_pos (by norm_num : (0:ℚ) < 1/2)]
    norm_num
  exact C4_thm _ _ _ _ (3/2) havg (by norm_num) hdev

/-! Resolver evaluation helpers -/

theorem getEnh_unknown : getEnhancedNutritionData "unknown".toList = none := by decide

theorem calcAcc_unknown : calculateAccurateCalories "unknown".toList 100 = none := by
  unfold calculateAccurateCalories
  rw [getEnh_unknown]

set_option maxRecDepth 10000 in
theorem bestLocalMatch_unknown : bestLocalMatch (lowerStr "unknown".toList) = (none, 0) := by
  simp +decide [bestLocalMatch, localFoodDb, List.foldl, localScore]

theorem mfc_unknown : matchFoodCategory (lowerStr "unknown".toList) = none := by decide

theorem getLocalNutrition_unknown :
    getLocalNutrition "unknown".toList 100 = ⟨150, 5, 20, 5, 2, 8, 0.3⟩ := by
  simp only [getLocalNutrition, bestLocalMatch_unknown, mfc_unknown]
  norm_num [defaultLocalEntry]

theorem round1_int (n : ℤ) : round1 (n : ℚ) = n :=
  round1_eq_self _ (n * 10) (by push_cast; ring)

theorem getWeb_none (n : List Char) (w : ℚ) :
    getWebSearchNutrition none none n w = none := by
  simp [getWebSearchNutrition, searchFastFoodNutrition, searchGeneralNutrition]

theorem calcUnknown_eval :
    calculateCalories ⟨none, none, none⟩ "unknown".toList 100 ["unknown".toList] =
      { food_name := some "unknown".toList
      , weight_grams := 100
      , total_calories := 150
      , protein := 5
      , carbs := 20
      , fat := 5
      , fiber := some 2
      , sugar := some 8
      , sodium := some 0.3
      , data_source := "calculated".toList } := by
  have r150 : round1 150 = 150 := by exact_mod_cast round1_int 150
  have r5 : round1 5 = 5 := by exact_mod_cast round1_int 5
  have r20 : round1 20 = 20 := by exact_mod_cast round1_int 20
  have r2 : round1 2 = 2 := by exact_mod_cast round1_int 2
  have r8 : round1 8 = 8 := by exact_mod_cast round1_int 8
  have r03 : round1 (3/10) = 3/10 := round1_eq_self _ 3 (by norm_num)
  simp only [calculateCalories, calcAcc_unknown, getLocalNutrition_unknown,
    getWeb_none]
  norm_num [r150, r5, r20, r2, r8, r03]

theorem calcAcc_weight (n : List Char) (w : ℚ) (r : EnhResult)
    (h : calculateAccurateCalories n w = some r) : r.weight_grams = w := by
  simp only [calculateAccurateCalories] at h
  split at h
  next => exact absurd h (by simp)
  next =>
    injection h with h'
    subst h'
    rfl

theorem searchFast_serving (reply : Option WebData) (w : ℚ) (hw : w ≠ 0)
    (wd : WebData) (h : searchFastFoodNutrition reply w = some wd) :
    wd.serving_weight_grams.getD w = w := by
  cases reply with
  | none => exact absurd h (by simp [searchFastFoodNutrition])
  | some d =>
    simp only [searchFastFoodNutrition] at h
    split at h
    next hcond =>
      split at h
      next => exact absurd h (by simp)
      next =>
        injection h with h'
        subst h'
        simp [scaleNutritionData]
    next hcond =>
      injection h with h'
      subst h'
      push_neg at hcond
      exact (hcond hw).symm

theorem searchGen_serving (reply : Option GeneralReply) (n : List Char) (w : ℚ)
    (hw : w ≠ 0) (wd : WebData) (h : searchGeneralNutrition reply n w = some wd) :
    wd.serving_weight_grams.getD w = w := by
  cases reply with
  | none => exact absurd h (by simp [searchGeneralNutrition])
  | some g =>
    simp only [searchGeneralNutrition] at h
    injection h with h'
    subst h'
    simp [hw]

theorem webServing_requested (ff : Option WebData) (gen : Option GeneralReply)
    (n : List Char) (w : ℚ) (hw : w ≠ 0) (wd : WebData)
    (h : getWebSearchNutrition ff gen n w = some wd) :
    wd.serving_weight_grams.getD w = w := by
  simp only [getWebSearchNutrition] at h
  split_ifs at h with h1 h2
  · exact searchFast_serving ff w hw wd h
  · exact searchGen_serving gen n w hw wd h

theorem enhance_cases (ff : Option WebData) (gen : Option GeneralReply)
    (n : List Char) (w : ℚ) (existing : FoodResult) :
    (∃ wd, getWebSearchNutrition ff gen n w = some wd ∧
      (enhanceNutritionWithWebSearch ff gen n w existing).weight_grams =
        wd.serving_weight_grams.getD w) ∨
    (enhanceNutritionWithWebSearch ff gen n w existing).data_source =
      existing.data_source ++ "_web_verified".toList := by
  simp only [enhanceNutritionWithWebSearch]
  split
  next wd hwd =>
    split
    · exact Or.inl ⟨wd, hwd, rfl⟩
    · exact Or.inr rfl
  next => exact Or.inr rfl

/-! Claim C3 -/

/-- C3: every resolution output record carries the caller's (truthy)
requested weight, never the serving weight reported by the winning source:
the enhanced and calculated paths copy the requested weight directly, and
the web-search module itself normalizes any reported serving weight to the
requested weight (rescaling the fast-food reply, rebasing the per-100g
reply) before either web-tagged record is built; the exception fallback
also keeps it. -/
theorem C3_thm (ext : Externals) (foodName : List Char) (w : ℚ)
    (allFoods : List (List Char)) (hw : w ≠ 0) :
    (calculateCalories ext foodName w allFoods).weight_grams = w ∧
    (getFallbackNutrition foodName w).weight_grams = w := by
  refine ⟨?_, rfl⟩
  simp only [calculateCalories]
  split
  next er hacc =>
    split
    · split
      next hds =>
        rcases enhance_cases ext.fastFoodReply ext.generalReply foodName w
            (enhancedRecordOf er) with ⟨wd, hwd, hwg⟩ | hleft
        · rw [hwg]
          exact webServing_requested _ _ _ _ hw _ hwd
        · have hds' := eq_of_beq hds
          rw [hleft] at hds'
          simp only [enhancedRecordOf] at hds'
          exact absurd hds' (by decide)
      next => exact calcAcc_weight _ _ _ hacc
    · exact calcAcc_weight _ _ _ hacc
  next hacc =>
    split
    next r hr =>
      split at hr
      · split at hr
        next wd hwd =>
          split at hr
          · injection hr with hr'
            subst hr'
            exact webServing_requested _ _ _ _ hw _ hwd
          · exact absurd hr (by simp)
        next => exact absurd hr (by simp)
      · exact absurd hr (by simp)
    next => rfl

/-- C3 witness: a fast-food label whose confident web reply reports a
250-gram serving still resolves at the requested 100 grams (the module
rescales the reply to the request), and the all-miss "unknown" resolution
keeps its requested 100 grams too. -/
theorem C3_witness :
    (calculateCalories ⟨some bigMacWebReply, none, none⟩ "big mac".toList 100
      ["big mac".toList]).weight_grams = 100 ∧
    (calculateCalories ⟨none, none, none⟩ "unknown".toList 100
      ["unknown".toList]).weight_grams = 100 :=
  ⟨(C3_thm ⟨some bigMacWebReply, none, none⟩ "big mac".toList 100
      ["big mac".toList] (by norm_num)).1,
   (C3_thm ⟨none, none, none⟩ "unknown".toList 100 ["unknown".toList]
      (by norm_num)).1⟩

/-! Claim C1 -/

/-- C1 counterexample: when every lookup source and external client misses,
`calculate_calories("unknown", 100)` completes the exception-free cascade and
tags the record `calculated`, not `fallback_estimate` (the latter tag is
produced only by the exception handler). -/
theorem C1_cex :
    (calculateCalories ⟨none, none, none⟩ "unknown".toList 100
      ["unknown".toList]).data_source = "calculated".toList ∧
    "calculated".toList ≠ "fallback_estimate".toList := by
  constructor
  · rw [calcUnknown_eval]
  · decide

/-- C1 as amended: with every lookup and external client missing, resolving
"unknown" at 100 grams returns calories 150, protein 5, carbs 20, fat 5 from
the default local entry with `data_source = "calculated"`; the
`fallback_estimate` tag belongs to the exception path, whose flat per-gram
estimate yields the same four numbers at 100 grams. -/
theorem C1_thm :
    calculateCalories ⟨none, none, none⟩ "unknown".toList 100 ["unknown".toList] =
      { food_name := some "unknown".toList
      , weight_grams := 100
      , total_calories := 150
      , protein := 5
      , carbs := 20
      , fat := 5
      , fiber := some 2
      , sugar := some 8
      , sodium := some 0.3
      , data_source := "calculated".toList } ∧
    getFallbackNutrition "unknown".toList 100 =
      { food_name := some "unknown".toList
      , weight_grams := 100
      , total_calories := 150
      , protein := 5
      , carbs := 20
      , fat := 5
      , fiber := some 2
      , sugar := some 8
      , sodium := some 0.3
      , data_source := "fallback_estimate".toList } := by
  refine ⟨calcUnknown_eval, ?_⟩
  simp only [getFallbackNutrition]
  norm_num
